import Mathlib

/-!
Verification of the F4T SCPI interface (`src/f4t/f4t_interface.py`).

The Python class `F4T(Controller)` wraps a textual command channel: every
operation formats an SCPI command string, sends it, and optionally reads one
response line.  We embed the class shallowly: an `F4T` structure carries the
convenience fields (`set_point`, `temp_units`, `current_profile`,
`profiles`, `timeout`) together with the channel state, modelled as the list
of pending device response lines (`incoming`) and the list of commands sent
so far (`sent`).  Each Python method becomes a pure Lean function on `F4T`;
methods that read use `Except` to surface the timeout on an exhausted
response stream.  `time.sleep` calls are no-ops in the model.

The base class `Controller` and the enumerations `TempUnits`/`RampScale`
live in `f4t_class`, which is not part of the sources; those pieces are
modelled from the spec and are marked as such in their doc comments.
-/

/-- Errors of the interface, following spec §7: `TransportError`,
`TimeoutError`, `InvalidArgument`, `UnexpectedResponse`. -/
inductive F4TError
  | transportError
  | timeoutError
  | invalidArgument
  | unexpectedResponse
deriving DecidableEq, Repr

/-- Modelled from the spec: `TempUnits` lives in the missing `f4t_class`
module.  Spec §3: an enumeration {Celsius, Fahrenheit} where the device
transmits/accepts a short textual token per value. -/
inductive TempUnits
  | C
  | F
deriving DecidableEq, Repr

/-- Modelled from the spec: the textual token (`.value` in Python) carried
by each temperature unit. -/
def TempUnits.value : TempUnits → String
  | .C => "C"
  | .F => "F"

/-- Modelled from the spec: the Python enum constructor `TempUnits(rsp)`,
which finds the member with the given token and raises on anything else. -/
def TempUnits.fromValue : String → Option TempUnits
  | "C" => some .C
  | "F" => some .F
  | _ => none

/-- Modelled from the spec: `RampScale` lives in the missing `f4t_class`
module.  Spec §3: an enumeration of device-recognized ramp-scale tokens;
the members are not given by the sources, so we fix a representative
two-member set (minutes and hours). -/
inductive RampScale
  | minutes
  | hours
deriving DecidableEq, Repr

/-- Modelled from the spec: the Python enum constructor `RampScale(x)`,
which finds the member with the given token and raises `ValueError`
(surfaced as `InvalidArgument`) on anything else. -/
def RampScale.fromValue : String → Option RampScale
  | "MINUTES" => some .minutes
  | "HOURS" => some .hours
  | _ => none

/-- Python `str()` of a `RampScale` member, as produced by the f-string in
`set_ramScale`: for an enum member this is `ClassName.MEMBER`. -/
def RampScale.str : RampScale → String
  | .minutes => "RampScale.MINUTES"
  | .hours => "RampScale.HOURS"

/-- Python `str.strip()`: drop leading and trailing whitespace. -/
def pyStrip (s : String) : String :=
  String.mk (((s.data.dropWhile Char.isWhitespace).reverse.dropWhile
    Char.isWhitespace).reverse)

/-- Python `str.replace(CHR(34), EMPTY)` as used on profile names: remove
every double-quote character. -/
def removeQuotes (s : String) : String :=
  String.mk (s.data.filter (fun c => c != '"'))

/-- The quote-stripping applied by `get_profiles` to each response line:
`read_items().strip().replace(QUOTE, EMPTY)`. -/
def cleanName (s : String) : String :=
  removeQuotes (pyStrip s)

/-- Python dict assignment `d[k] = v` on an insertion-ordered dict: update
in place when the key is present, append otherwise. -/
def dictInsert (d : List (Int × String)) (k : Int) (v : String) :
    List (Int × String) :=
  if d.any (fun p => p.1 == k) then
    d.map (fun p => if p.1 == k then (p.1, v) else p)
  else d ++ [(k, v)]

/-- State of an `F4T` instance together with its command channel.
`profiles` is the Python dict `self.profiles` as an insertion-ordered
association list; `incoming` is the stream of response lines the device
will deliver, `sent` the commands transmitted so far. -/
structure F4T where
  set_point : Rat
  temp_units : TempUnits
  current_profile : Int
  profiles : List (Int × String)
  timeout : Option Rat
  incoming : List String
  sent : List String
deriving DecidableEq, Repr

namespace F4T

/-- Modelled from the spec: `Controller.send_cmd` of the missing
`f4t_class` module — transmit one command string, no response. -/
def send_cmd (st : F4T) (cmd : String) : F4T :=
  { st with sent := st.sent ++ [cmd] }

/-- Modelled from the spec: `Controller.read_items` of the missing
`f4t_class` module — block for one response line, failing with
`TimeoutError` when no data arrives. -/
def read_items (st : F4T) : Except F4TError (String × F4T) :=
  match st.incoming with
  | [] => .error .timeoutError
  | r :: rs => .ok (r, { st with incoming := rs })

/-- Modelled from the spec: `Controller.clear_buffer` of the missing
`f4t_class` module — discard unread buffered data.  Future device
responses (`incoming`) model data not yet produced, so this is the
identity on the model state. -/
def clear_buffer (st : F4T) : F4T := st

/-- Python `F4T.__init__`: store the convenience fields, default the channel
timeout to 1.5 s when unset, start with an empty profile dict.  The
`super().__init__` call (channel setup, including the caller-supplied
timeout) is modelled from the spec by the `timeout0`/`incoming0`
parameters. -/
def init (set_point : Rat) (units : TempUnits) (profile : Int)
    (timeout0 : Option Rat) (incoming0 : List String) : F4T :=
  let t : Option Rat :=
    match timeout0 with
    | none => some (3 / 2)
    | some x => some x
  { set_point := set_point
    temp_units := units
    current_profile := profile
    profiles := []
    timeout := t
    incoming := incoming0
    sent := [] }

/-- Python `get_units`: clear buffer, query, read, parse the token into
`TempUnits` and store it; an unknown token is `UnexpectedResponse`. -/
def get_units (st : F4T) : Except F4TError F4T :=
  match (st.clear_buffer.send_cmd ":UNIT:TEMPERATURE?").read_items with
  | .error e => .error e
  | .ok (rsp, st) =>
    match TempUnits.fromValue rsp with
    | none => .error .unexpectedResponse
    | some u => .ok { st with temp_units := u }

/-- Python `set_units`: send the unit token, defaulting to the stored unit when
no argument is given.  The stored field is not assigned. -/
def set_units (st : F4T) (units : Option TempUnits) : F4T :=
  let u := match units with
    | none => st.temp_units
    | some u => u
  st.send_cmd (":UNITS:TEMPERATURE " ++ u.value)

/-- Python `select_profile`: write the profile number. -/
def select_profile (st : F4T) (profile : Int) : F4T :=
  st.send_cmd (":PROGRAM:NUMBER " ++ toString profile)

/-- The loop body of `get_profiles`, iterating `i, i+1, ...` with `fuel`
iterations remaining (`range(1, 40)` gives 39 iterations from 1).  Each
iteration selects profile `i`, queries its name, reads one line, strips
and unquotes it; a non-empty name is stored and iteration continues, an
empty one breaks. -/
def get_profilesAux (st : F4T) (i : Int) : Nat → Except F4TError F4T
  | 0 => .ok st
  | fuel + 1 =>
    match ((st.select_profile i).send_cmd ":PROGRAM:NAME?").read_items with
    | .error e => .error e
    | .ok (rsp, st) =>
      if cleanName rsp = "" then
        .ok st
      else
        get_profilesAux
          { st with profiles := dictInsert st.profiles i (cleanName rsp) }
          (i + 1) fuel

/-- Python `get_profiles`: `for i in range(1, 40)` — profile numbers 1 through
39 — populating `self.profiles`. -/
def get_profiles (st : F4T) : Except F4TError F4T :=
  st.get_profilesAux 1 39

/-- Python `prog_mode`: write an execution-state token for the selected
profile. -/
def prog_mode (st : F4T) (mode : String) : F4T :=
  st.send_cmd (":PROGRAM:SELECTED:STATE " ++ mode)

/-- Python `get_pv`: query a loop process value and return the response line. -/
def get_pv (st : F4T) (loop : Int) : Except F4TError (String × F4T) :=
  (st.send_cmd (":SOURCE:CLOOP" ++ toString loop ++ ":PVALUE?")).read_items

/-- Python `get_sp`: query a loop set point and return the response line. -/
def get_sp (st : F4T) (loop : Int) : Except F4TError (String × F4T) :=
  (st.send_cmd (":SOURCE:CLOOP" ++ toString loop ++ ":SPOINT?")).read_items

/-- Python `get_cascadeSP`: query a cascade set point. -/
def get_cascadeSP (st : F4T) (cascade : Int) :
    Except F4TError (String × F4T) :=
  (st.send_cmd
    (":SOURCE:CASCADE" ++ toString cascade ++ ":SPOINT?")).read_items

/-- Python `get_cascadeLoopPV`: query the outer (truthy `loop`) or inner half of
a cascade for its process value. -/
def get_cascadeLoopPV (st : F4T) (loop : Int) (cascade : Int) :
    Except F4TError (String × F4T) :=
  (st.send_cmd (":SOURCE:CASCADE" ++ toString cascade ++ ":"
    ++ (if loop == 0 then "INNER" else "OUTER") ++ ":PVALUE?")).read_items

/-- Python `get_cascadeLoopSP`: query the outer or inner half of a cascade for
its set point. -/
def get_cascadeLoopSP (st : F4T) (loop : Int) (cascade : Int) :
    Except F4TError (String × F4T) :=
  (st.send_cmd (":SOURCE:CASCADE" ++ toString cascade ++ ":"
    ++ (if loop == 0 then "INNER" else "OUTER") ++ ":SPOINT?")).read_items

/-- Python `write_sp`: write a loop set point (the command carries no leading
colon in the source).  `val` is the Python `str()` rendering of the
value interpolated into the f-string. -/
def write_sp (st : F4T) (val : String) (loop : Int) : F4T :=
  st.send_cmd ("SOURCE:CLOOP" ++ toString loop ++ ":SPOINT " ++ val)

/-- Python `is_done`: query an output state, read one line, return whether the
response equals the token ON. -/
def is_done (st : F4T) (ts_num : Int) : Except F4TError (Bool × F4T) :=
  match (st.send_cmd (":OUTPUT" ++ toString ts_num ++ ":STATE?")).read_items
  with
  | .error e => .error e
  | .ok (rsp, st) => .ok (rsp == "ON", st)

/-- Python `get_ts`: query an output state and read (and print) the line. -/
def get_ts (st : F4T) (ts_num : Int) : Except F4TError F4T :=
  match (st.send_cmd (":OUTPUT" ++ toString ts_num ++ ":STATE?")).read_items
  with
  | .error e => .error e
  | .ok (_, st) => .ok st

/-- Python `set_output`: read the current output state and write the opposite
token — ON when the response is OFF, OFF for any other response. -/
def set_output (st : F4T) (ts_num : Int) : Except F4TError F4T :=
  match (st.send_cmd (":OUTPUT" ++ toString ts_num ++ ":STATE?")).read_items
  with
  | .error e => .error e
  | .ok (rsp, st) =>
    .ok (st.send_cmd (":OUTPUT" ++ toString ts_num ++ ":STATE "
      ++ (if rsp == "OFF" then "ON" else "OFF")))

/-- Python `set_ramScale`: validate the value through the `RampScale` enum
constructor (failing before any transmission), then write the scale.
The f-string interpolates `str(scale)`. -/
def set_ramScale (st : F4T) (ramp_scale : String) (loop : Int) :
    Except F4TError F4T :=
  match RampScale.fromValue ramp_scale with
  | none => .error .invalidArgument
  | some scale =>
    .ok (st.send_cmd
      (":SOURCE:CLOOP" ++ toString loop ++ ":RSCALE " ++ scale.str))

/-- Python `ramp_mode`: write a ramp-action token for a loop. -/
def ramp_mode (st : F4T) (mode : String) (loop : Int) : F4T :=
  st.send_cmd (":SOURCE:CLOOP" ++ toString loop ++ ":RACTION " ++ mode)

/-- Python `get_ramp`: select the sub-parameter token (`RRATE?` for rate,
`RTIME?` otherwise) and send the query.  The source performs no read and
returns nothing. -/
def get_ramp (st : F4T) (rampType : String) (loop : Int) : F4T :=
  let rateMode := if rampType == "rate" then "RRATE?" else "RTIME?"
  st.send_cmd (":SOURCE:CLOOP" ++ toString loop ++ ":" ++ rateMode)

/-- Python `set_ramp`: build the command from the same query-form token
(including the query marker) with the value appended. -/
def set_ramp (st : F4T) (rampType : String) (value : String) (loop : Int) :
    F4T :=
  let rateMode := if rampType == "rate" then "RRATE?" else "RTIME?"
  st.send_cmd
    (":SOURCE:CLOOP" ++ toString loop ++ ":" ++ rateMode ++ " " ++ value)

end F4T

/-- Spec-side mirror of the profile enumeration, written from the claim's
words: starting at profile number `i` with `fuel` iterations left and the
device response lines `rs`, collect `(p, cleaned name)` entries in
ascending order of `p`, stopping at the first name that is empty after
quote-stripping (or when the fuel runs out). -/
def enumSpec : Nat → Int → List String → List (Int × String)
  | 0, _, _ => []
  | _ + 1, _, [] => []
  | fuel + 1, i, r :: rs =>
    if cleanName r = "" then []
    else (i, cleanName r) :: enumSpec fuel (i + 1) rs

/-- One operation of the interface, with its arguments; used to quantify
over "every operation" in invariant and frame claims. -/
inductive Op
  | get_units
  | set_units (u : Option TempUnits)
  | get_profiles
  | select_profile (p : Int)
  | prog_mode (m : String)
  | get_pv (loop : Int)
  | get_sp (loop : Int)
  | get_cascadeSP (c : Int)
  | get_cascadeLoopPV (loop : Int) (c : Int)
  | get_cascadeLoopSP (loop : Int) (c : Int)
  | write_sp (v : String) (loop : Int)
  | is_done (n : Int)
  | get_ts (n : Int)
  | set_output (n : Int)
  | set_ramScale (s : String) (loop : Int)
  | ramp_mode (m : String) (loop : Int)
  | get_ramp (t : String) (loop : Int)
  | set_ramp (t : String) (v : String) (loop : Int)
deriving DecidableEq, Repr

/-- Run one operation on a state, discarding any returned value. -/
def Op.run (st : F4T) : Op → Except F4TError F4T
  | .get_units => st.get_units
  | .set_units u => .ok (st.set_units u)
  | .get_profiles => st.get_profiles
  | .select_profile p => .ok (st.select_profile p)
  | .prog_mode m => .ok (st.prog_mode m)
  | .get_pv l => (st.get_pv l).map Prod.snd
  | .get_sp l => (st.get_sp l).map Prod.snd
  | .get_cascadeSP c => (st.get_cascadeSP c).map Prod.snd
  | .get_cascadeLoopPV lp c => (st.get_cascadeLoopPV lp c).map Prod.snd
  | .get_cascadeLoopSP lp c => (st.get_cascadeLoopSP lp c).map Prod.snd
  | .write_sp v l => .ok (st.write_sp v l)
  | .is_done n => (st.is_done n).map Prod.snd
  | .get_ts n => st.get_ts n
  | .set_output n => st.set_output n
  | .set_ramScale s l => st.set_ramScale s l
  | .ramp_mode m l => .ok (st.ramp_mode m l)
  | .get_ramp t l => .ok (st.get_ramp t l)
  | .set_ramp t v l => .ok (st.set_ramp t v l)

/-- The two operations of claim C10: profile selection and set-point
writes. -/
inductive SpOp
  | select (p : Int)
  | write (v : String) (loop : Int)

/-- Apply one C10 operation. -/
def SpOp.apply (st : F4T) : SpOp → F4T
  | .select p => st.select_profile p
  | .write v l => st.write_sp v l

/-- Run a sequence of C10 operations left to right. -/
def runSpOps (st : F4T) : List SpOp → F4T
  | [] => st
  | op :: ops => runSpOps (op.apply st) ops

/-- The inverse output token computed by `set_output`: ON when the
observed response is OFF, OFF for anything else. -/
def invTok (s : String) : String :=
  if s == "OFF" then "ON" else "OFF"

example :
    (F4T.init 22 TempUnits.C 1 none ["ON"]).is_done 1
      = .ok (true, { F4T.init 22 TempUnits.C 1 none [] with
          incoming := [], sent := [":OUTPUT1:STATE?"] }) := by
  rfl

example :
    (F4T.init 22 TempUnits.C 1 none ["\"Ramp1\"", "\"Ramp2\"", ""]
      ).get_profiles
      = .ok { F4T.init 22 TempUnits.C 1 none [] with
          profiles := [(1, "Ramp1"), (2, "Ramp2")],
          incoming := [],
          sent := [":PROGRAM:NUMBER 1", ":PROGRAM:NAME?",
                   ":PROGRAM:NUMBER 2", ":PROGRAM:NAME?",
                   ":PROGRAM:NUMBER 3", ":PROGRAM:NAME?"] } := by
  rfl

example :
    enumSpec 39 1 ["\"Ramp1\"", "\"Ramp2\"", ""]
      = [(1, "Ramp1"), (2, "Ramp2")] := by
  rfl

lemma dictInsert_fresh (d : List (Int × String)) (k : Int) (v : String)
    (h : ∀ q ∈ d, q.1 ≠ k) : dictInsert d k v = d ++ [(k, v)] := by
  unfold dictInsert
  rw [if_neg]
  simp only [List.any_eq_true, beq_iff_eq, not_exists, not_and]
  intro q hq
  exact h q hq

lemma foldl_dictInsert_fresh :
    ∀ (l d : List (Int × String)),
      (∀ p ∈ l, ∀ q ∈ d, q.1 ≠ p.1) → (l.map Prod.fst).Nodup →
      l.foldl (fun d p => dictInsert d p.1 p.2) d = d ++ l := by
  intro l
  induction l with
  | nil => intro d _ _; simp
  | cons p l ih =>
    intro d hfresh hnodup
    simp only [List.foldl_cons]
    rw [dictInsert_fresh d p.1 p.2
      (fun q hq => hfresh p (List.mem_cons_self _ _) q hq)]
    rw [ih (d ++ [(p.1, p.2)]) ?_ ?_]
    · simp
    · intro p' hp' q hq
      rcases List.mem_append.mp hq with hq | hq
      · exact hfresh p' (List.mem_cons_of_mem _ hp') q hq
      · have hqp : q = (p.1, p.2) := by simpa using hq
        subst hqp
        simp only [List.map_cons, List.nodup_cons] at hnodup
        intro heq
        exact hnodup.1 (heq ▸ List.mem_map_of_mem Prod.fst hp')
    · simp only [List.map_cons, List.nodup_cons] at hnodup
      exact hnodup.2

lemma enumSpec_le_keys :
    ∀ (fuel : Nat) (i : Int) (rs : List String),
      ∀ p ∈ enumSpec fuel i rs, i ≤ p.1 := by
  intro fuel
  induction fuel with
  | zero => intro i rs p hp; simp [enumSpec] at hp
  | succ fuel ih =>
    intro i rs p hp
    cases rs with
    | nil => simp [enumSpec] at hp
    | cons r rs =>
      simp only [enumSpec] at hp
      split at hp
      · simp at hp
      · rcases List.mem_cons.mp hp with h | h
        · subst h; exact le_refl _
        · have := ih (i + 1) rs p h
          omega

lemma enumSpec_keys_nodup :
    ∀ (fuel : Nat) (i : Int) (rs : List String),
      ((enumSpec fuel i rs).map Prod.fst).Nodup := by
  intro fuel
  induction fuel with
  | zero => intro i rs; simp [enumSpec]
  | succ fuel ih =>
    intro i rs
    cases rs with
    | nil => simp [enumSpec]
    | cons r rs =>
      simp only [enumSpec]
      split
      · simp
      · simp only [List.map_cons]
        refine List.nodup_cons.mpr ⟨?_, ih (i + 1) rs⟩
        intro hmem
        rcases List.mem_map.mp hmem with ⟨p, hp, hpi⟩
        have := enumSpec_le_keys fuel (i + 1) rs p hp
        omega

lemma enumSpec_chain :
    ∀ (fuel : Nat) (i : Int) (rs : List String),
      List.Chain' (fun a b : Int × String => a.1 < b.1)
        (enumSpec fuel i rs) := by
  intro fuel
  induction fuel with
  | zero => intro i rs; simp [enumSpec]
  | succ fuel ih =>
    intro i rs
    cases rs with
    | nil => simp [enumSpec]
    | cons r rs =>
      simp only [enumSpec]
      split
      · exact List.chain'_nil
      · refine List.chain'_cons'.mpr ⟨?_, ih (i + 1) rs⟩
        intro b hb
        have hbmem : b ∈ enumSpec fuel (i + 1) rs :=
          List.mem_of_mem_head? hb
        have := enumSpec_le_keys fuel (i + 1) rs b hbmem
        simp only []
        omega

lemma get_profilesAux_ok :
    ∀ (fuel : Nat) (i : Int) (st st' : F4T),
      F4T.get_profilesAux st i fuel = .ok st' →
      st'.profiles = (enumSpec fuel i st.incoming).foldl
          (fun d p => dictInsert d p.1 p.2) st.profiles
      ∧ st'.temp_units = st.temp_units
      ∧ st'.set_point = st.set_point
      ∧ st'.current_profile = st.current_profile
      ∧ st'.timeout = st.timeout := by
  intro fuel
  induction fuel with
  | zero =>
    intro i st st' h
    simp only [F4T.get_profilesAux, Except.ok.injEq] at h
    subst h
    simp [enumSpec]
  | succ fuel ih =>
    intro i st st' h
    rcases hinc : st.incoming with _ | ⟨r, rs⟩
    · simp [F4T.get_profilesAux, F4T.select_profile, F4T.send_cmd,
        F4T.read_items, hinc] at h
    · simp only [F4T.get_profilesAux, F4T.select_profile, F4T.send_cmd,
        F4T.read_items, hinc] at h
      by_cases hname : cleanName r = ""
      · rw [if_pos hname] at h
        simp only [Except.ok.injEq] at h
        subst h
        simp [enumSpec, hinc, hname]
      · rw [if_neg hname] at h
        have := ih (i + 1) _ _ h
        simp only at this
        obtain ⟨h1, h2, h3, h4, h5⟩ := this
        refine ⟨?_, h2, h3, h4, h5⟩
        rw [h1]
        simp [enumSpec, hinc, hname]

lemma get_profilesAux_isOk :
    ∀ (fuel : Nat) (i : Int) (st : F4T),
      fuel ≤ st.incoming.length →
      ∃ st', F4T.get_profilesAux st i fuel = .ok st' := by
  intro fuel
  induction fuel with
  | zero => intro i st _; exact ⟨st, rfl⟩
  | succ fuel ih =>
    intro i st hlen
    rcases hinc : st.incoming with _ | ⟨r, rs⟩
    · rw [hinc] at hlen; simp at hlen
    · simp only [F4T.get_profilesAux, F4T.select_profile, F4T.send_cmd,
        F4T.read_items, hinc]
      by_cases hname : cleanName r = ""
      · rw [if_pos hname]
        exact ⟨_, rfl⟩
      · rw [if_neg hname]
        apply ih
        simp only []
        rw [hinc] at hlen
        simpa using Nat.le_of_succ_le_succ hlen

lemma get_units_ok (st st' : F4T) (h : st.get_units = .ok st') :
    TempUnits.fromValue (st.incoming.headD "") = some st'.temp_units
    ∧ st'.set_point = st.set_point
    ∧ st'.current_profile = st.current_profile
    ∧ st'.profiles = st.profiles
    ∧ st'.timeout = st.timeout := by
  rcases hinc : st.incoming with _ | ⟨r, rs⟩
  · simp [F4T.get_units, F4T.clear_buffer, F4T.send_cmd, F4T.read_items,
      hinc] at h
  · simp only [F4T.get_units, F4T.clear_buffer, F4T.send_cmd,
      F4T.read_items, hinc] at h
    rcases hu : TempUnits.fromValue r with _ | u
    · simp [hu] at h
    · simp only [hu, Except.ok.injEq] at h
      subst h
      simp [hinc, hu]

lemma Op_run_frame (op : Op) (st st' : F4T) (h : op.run st = .ok st') :
    st'.set_point = st.set_point
    ∧ st'.current_profile = st.current_profile
    ∧ st'.timeout = st.timeout
    ∧ (op ≠ .get_units → st'.temp_units = st.temp_units)
    ∧ (op ≠ .get_profiles → st'.profiles = st.profiles) := by
  cases op with
  | get_units =>
    simp only [Op.run] at h
    have hg := get_units_ok st st' h
    exact ⟨hg.2.1, hg.2.2.1, hg.2.2.2.2, fun hne => absurd rfl hne,
      fun _ => hg.2.2.2.1⟩
  | set_units u =>
    simp only [Op.run, Except.ok.injEq] at h
    subst h
    exact ⟨rfl, rfl, rfl, fun _ => rfl, fun _ => rfl⟩
  | get_profiles =>
    simp only [Op.run, F4T.get_profiles] at h
    have hg := get_profilesAux_ok 39 1 st st' h
    exact ⟨hg.2.2.1, hg.2.2.2.1, hg.2.2.2.2, fun _ => hg.2.1,
      fun hne => absurd rfl hne⟩
  | select_profile p =>
    simp only [Op.run, Except.ok.injEq] at h
    subst h
    exact ⟨rfl, rfl, rfl, fun _ => rfl, fun _ => rfl⟩
  | prog_mode m =>
    simp only [Op.run, Except.ok.injEq] at h
    subst h
    exact ⟨rfl, rfl, rfl, fun _ => rfl, fun _ => rfl⟩
  | get_pv l =>
    rcases hinc : st.incoming with _ | ⟨r, rs⟩
    · simp [Op.run, F4T.get_pv, F4T.send_cmd, F4T.read_items, hinc,
        Except.map] at h
    · simp only [Op.run, F4T.get_pv, F4T.send_cmd, F4T.read_items, hinc,
        Except.map, Except.ok.injEq] at h
      subst h
      exact ⟨rfl, rfl, rfl, fun _ => rfl, fun _ => rfl⟩
  | get_sp l =>
    rcases hinc : st.incoming with _ | ⟨r, rs⟩
    · simp [Op.run, F4T.get_sp, F4T.send_cmd, F4T.read_items, hinc,
        Except.map] at h
    · simp only [Op.run, F4T.get_sp, F4T.send_cmd, F4T.read_items, hinc,
        Except.map, Except.ok.injEq] at h
      subst h
      exact ⟨rfl, rfl, rfl, fun _ => rfl, fun _ => rfl⟩
  | get_cascadeSP c =>
    rcases hinc : st.incoming with _ | ⟨r, rs⟩
    · simp [Op.run, F4T.get_cascadeSP, F4T.send_cmd, F4T.read_items,
        hinc, Except.map] at h
    · simp only [Op.run, F4T.get_cascadeSP, F4T.send_cmd, F4T.read_items,
        hinc, Except.map, Except.ok.injEq] at h
      subst h
      exact ⟨rfl, rfl, rfl, fun _ => rfl, fun _ => rfl⟩
  | get_cascadeLoopPV lp c =>
    rcases hinc : st.incoming with _ | ⟨r, rs⟩
    · simp [Op.run, F4T.get_cascadeLoopPV, F4T.send_cmd, F4T.read_items,
        hinc, Except.map] at h
    · simp only [Op.run, F4T.get_cascadeLoopPV, F4T.send_cmd,
        F4T.read_items, hinc, Except.map, Except.ok.injEq] at h
      subst h
      exact ⟨rfl, rfl, rfl, fun _ => rfl, fun _ => rfl⟩
  | get_cascadeLoopSP lp c =>
    rcases hinc : st.incoming with _ | ⟨r, rs⟩
    · simp [Op.run, F4T.get_cascadeLoopSP, F4T.send_cmd, F4T.read_items,
        hinc, Except.map] at h
    · simp only [Op.run, F4T.get_cascadeLoopSP, F4T.send_cmd,
        F4T.read_items, hinc, Except.map, Except.ok.injEq] at h
      subst h
      exact ⟨rfl, rfl, rfl, fun _ => rfl, fun _ => rfl⟩
  | write_sp v l =>
    simp only [Op.run, Except.ok.injEq] at h
    subst h
    exact ⟨rfl, rfl, rfl, fun _ => rfl, fun _ => rfl⟩
  | is_done n =>
    rcases hinc : st.incoming with _ | ⟨r, rs⟩
    · simp [Op.run, F4T.is_done, F4T.send_cmd, F4T.read_items, hinc,
        Except.map] at h
    · simp only [Op.run, F4T.is_done, F4T.send_cmd, F4T.read_items, hinc,
        Except.map, Except.ok.injEq] at h
      subst h
      exact ⟨rfl, rfl, rfl, fun _ => rfl, fun _ => rfl⟩
  | get_ts n =>
    rcases hinc : st.incoming with _ | ⟨r, rs⟩
    · simp [Op.run, F4T.get_ts, F4T.send_cmd, F4T.read_items, hinc] at h
    · simp only [Op.run, F4T.get_ts, F4T.send_cmd, F4T.read_items, hinc,
        Except.ok.injEq] at h
      subst h
      exact ⟨rfl, rfl, rfl, fun _ => rfl, fun _ => rfl⟩
  | set_output n =>
    rcases hinc : st.incoming with _ | ⟨r, rs⟩
    · simp [Op.run, F4T.set_output, F4T.send_cmd, F4T.read_items,
        hinc] at h
    · simp only [Op.run, F4T.set_output, F4T.send_cmd, F4T.read_items,
        hinc, Except.ok.injEq] at h
      subst h
      exact ⟨rfl, rfl, rfl, fun _ => rfl, fun _ => rfl⟩
  | set_ramScale s l =>
    rcases hs : RampScale.fromValue s with _ | sc
    · simp [Op.run, F4T.set_ramScale, hs] at h
    · simp only [Op.run, F4T.set_ramScale, hs, Except.ok.injEq] at h
      subst h
      exact ⟨rfl, rfl, rfl, fun _ => rfl, fun _ => rfl⟩
  | ramp_mode m l =>
    simp only [Op.run, Except.ok.injEq] at h
    subst h
    exact ⟨rfl, rfl, rfl, fun _ => rfl, fun _ => rfl⟩
  | get_ramp t l =>
    simp only [Op.run, Except.ok.injEq] at h
    subst h
    exact ⟨rfl, rfl, rfl, fun _ => rfl, fun _ => rfl⟩
  | set_ramp t v l =>
    simp only [Op.run, Except.ok.injEq] at h
    subst h
    exact ⟨rfl, rfl, rfl, fun _ => rfl, fun _ => rfl⟩

set_option maxRecDepth 40000 in
/-- Claim C1, counterexample.  The claim says `get_profiles` iterates the
profile numbers 1..40, but the source loop is `range(1, 40)`, which stops
after 39.  With a device reporting the non-empty name `"Prof"` for every
profile (40 responses pending), the run stores only 39 registry entries,
none of them for profile 40, and one device response is left unread. -/
theorem c1_counterexample :
    ((F4T.init 22 TempUnits.C 1 none
        (List.replicate 40 "\"Prof\"")).get_profiles).map
      (fun st => (st.profiles.length,
        st.profiles.any (fun q => q.1 == 40), st.incoming.length))
      = .ok (39, false, 1) := by
  rfl

/-- Claim C1, amended: for every profile number p in [1,39] (the source
iterates `range(1, 40)`, i.e. 1..39, not 1..40) with a non-empty
device-reported name, `get_profiles` iterates p in ascending order,
stores the registry entry p → name (quotes stripped) exactly once, and
stops at the first p whose name is empty after quote-stripping (or after
p = 39), leaving registry entries only for the profiles before the first
empty name.  `enumSpec` mirrors that description of the registry; the
theorem shows the run (from a freshly constructed instance, on a device
with at least 39 pending response lines) produces exactly those entries,
with strictly ascending and hence pairwise distinct profile numbers. -/
theorem c1_profiles_enumeration (names : List String) (sp : Rat)
    (u : TempUnits) (p0 : Int) (t : Option Rat)
    (h : 39 ≤ names.length) :
    ((F4T.init sp u p0 t names).get_profiles).map F4T.profiles
        = .ok (enumSpec 39 1 names)
    ∧ List.Chain' (fun a b : Int × String => a.1 < b.1)
        (enumSpec 39 1 names)
    ∧ ((enumSpec 39 1 names).map Prod.fst).Nodup := by
  refine ⟨?_, enumSpec_chain 39 1 names, enumSpec_keys_nodup 39 1 names⟩
  have hlen : 39 ≤ (F4T.init sp u p0 t names).incoming.length := h
  obtain ⟨st', hst'⟩ := get_profilesAux_isOk 39 1 _ hlen
  have hok := get_profilesAux_ok 39 1 _ _ hst'
  rw [F4T.get_profiles, hst']
  simp only [Except.map]
  rw [hok.1]
  have hprof : (F4T.init sp u p0 t names).profiles = [] := rfl
  have hincm : (F4T.init sp u p0 t names).incoming = names := rfl
  rw [hprof, hincm]
  rw [foldl_dictInsert_fresh (enumSpec 39 1 names) []
    (fun p _ q hq => absurd hq (List.not_mem_nil q))
    (enumSpec_keys_nodup 39 1 names)]
  rw [List.nil_append]

/-- Claim C1, witness: a device with exactly 39 pending non-empty
names. -/
theorem c1_profiles_enumeration_witness :
    ((F4T.init 22 TempUnits.C 1 none
          (List.replicate 39 "A")).get_profiles).map F4T.profiles
        = .ok (enumSpec 39 1 (List.replicate 39 "A"))
    ∧ List.Chain' (fun a b : Int × String => a.1 < b.1)
        (enumSpec 39 1 (List.replicate 39 "A"))
    ∧ ((enumSpec 39 1 (List.replicate 39 "A")).map Prod.fst).Nodup :=
  c1_profiles_enumeration (List.replicate 39 "A") 22 TempUnits.C 1 none
    (by simp)

/-- Claim C2: after the output-state query, with a response line `r`
available to be read, `is_done` returns `true` exactly when `r` is the
token ON, returns `false` for every other string, and never fails or
returns an unknown value (the result is always `.ok`). -/
theorem c2_is_done_iff (st : F4T) (n : Int) (r : String)
    (rest : List String) (h : st.incoming = r :: rest) :
    ((st.is_done n).map Prod.fst = .ok true ↔ r = "ON")
    ∧ ((st.is_done n).map Prod.fst = .ok false ↔ r ≠ "ON") := by
  simp only [F4T.is_done, F4T.send_cmd, F4T.read_items, h, Except.map]
  constructor
  · simp
  · simp

/-- Claim C2, witness: the response ON yields `true`. -/
theorem c2_is_done_iff_witness :
    (((F4T.init 22 TempUnits.C 1 none ["ON"]).is_done 1).map Prod.fst
        = .ok true ↔ "ON" = "ON")
    ∧ (((F4T.init 22 TempUnits.C 1 none ["ON"]).is_done 1).map Prod.fst
        = .ok false ↔ "ON" ≠ "ON") :=
  c2_is_done_iff (F4T.init 22 TempUnits.C 1 none ["ON"]) 1 "ON" [] rfl

/-- Claim C3: `set_ramScale` validates its argument through the
`RampScale` enum constructor.  An unrecognized value fails with
`InvalidArgument` before anything is transmitted — the result is the
error alone, no successor state and in particular no send; a recognized
value sends exactly one write command. -/
theorem c3_set_ramScale_validates (st : F4T) (s : String) (loop : Int) :
    (RampScale.fromValue s = none →
      st.set_ramScale s loop = .error F4TError.invalidArgument)
    ∧ (∀ sc, RampScale.fromValue s = some sc →
      st.set_ramScale s loop
        = .ok (st.send_cmd
            (":SOURCE:CLOOP" ++ toString loop ++ ":RSCALE " ++ sc.str))) := by
  constructor
  · intro hnone
    simp [F4T.set_ramScale, hnone]
  · intro sc hsc
    simp [F4T.set_ramScale, hsc]

/-- Claim C3, witness: an unrecognized scale is rejected, a recognized
one is transmitted. -/
theorem c3_set_ramScale_validates_witness :
    ((F4T.init 22 TempUnits.C 1 none []).set_ramScale "banana" 1
        = .error F4TError.invalidArgument)
    ∧ ((F4T.init 22 TempUnits.C 1 none []).set_ramScale "MINUTES" 1
        = .ok ((F4T.init 22 TempUnits.C 1 none []).send_cmd
            (":SOURCE:CLOOP" ++ toString (1 : Int) ++ ":RSCALE "
              ++ RampScale.str RampScale.minutes))) :=
  ⟨(c3_set_ramScale_validates (F4T.init 22 TempUnits.C 1 none [])
      "banana" 1).1 rfl,
   (c3_set_ramScale_validates (F4T.init 22 TempUnits.C 1 none [])
      "MINUTES" 1).2 RampScale.minutes rfl⟩

/-- Claim C4, counterexample.  The claim says `set_units` with an
explicit unit argument updates the stored unit to that argument; in the
source `set_units` only sends the command and never assigns
`self.temp_units`.  Constructed with Celsius and asked to set
Fahrenheit, the instance still stores Celsius. -/
theorem c4_counterexample :
    ((F4T.init 22 TempUnits.C 1 none []).set_units
        (some TempUnits.F)).temp_units = TempUnits.C
    ∧ TempUnits.C ≠ TempUnits.F :=
  ⟨rfl, by decide⟩

/-- Claim C4, amended: the stored temperature-unit field is assigned
only at construction and by `get_units`, which sets it to the parsed
device response; `set_units` (with or without an explicit argument) and
every other operation leave it unchanged.  So after every successful
operation the stored unit equals the last device-confirmed value, or the
construction value if `get_units` never ran. -/
theorem c4_units_field (st st' : F4T) (op : Op)
    (h : op.run st = .ok st') :
    (op ≠ Op.get_units → st'.temp_units = st.temp_units)
    ∧ (op = Op.get_units →
        TempUnits.fromValue (st.incoming.headD "") = some st'.temp_units)
    := by
  refine ⟨(Op_run_frame op st st' h).2.2.2.1, ?_⟩
  intro hop
  subst hop
  simp only [Op.run] at h
  exact (get_units_ok st st' h).1

/-- Claim C4, witness: `set_units` with an explicit Fahrenheit argument
succeeds and leaves the stored unit unchanged. -/
theorem c4_units_field_witness :
    ((Op.set_units (some TempUnits.F)).run
        (F4T.init 22 TempUnits.C 1 none [])
      = .ok ((F4T.init 22 TempUnits.C 1 none []).set_units
          (some TempUnits.F)))
    ∧ ((F4T.init 22 TempUnits.C 1 none []).set_units
        (some TempUnits.F)).temp_units
      = (F4T.init 22 TempUnits.C 1 none []).temp_units :=
  ⟨rfl, (c4_units_field (F4T.init 22 TempUnits.C 1 none [])
      ((F4T.init 22 TempUnits.C 1 none []).set_units (some TempUnits.F))
      (Op.set_units (some TempUnits.F)) rfl).1 (by decide)⟩

/-- Claim C5: toggling an output twice returns it to the originally
observed state.  With the device first reporting state `s` (ON or OFF),
honoring the first write — the inverse token `invTok s` — and reporting
it on the next read, the first call writes `invTok s` and the second
call writes back `s`. -/
theorem c5_toggle_round_trip (n : Int) (s : String) (st : F4T)
    (hs : s = "ON" ∨ s = "OFF")
    (h : st.incoming = [s, invTok s]) :
    ((st.set_output n).bind (fun st1 => st1.set_output n)).map
        (fun st2 => st2.sent.getLast?)
      = .ok (some (":OUTPUT" ++ toString n ++ ":STATE " ++ s))
    ∧ (st.set_output n).map (fun st1 => st1.sent.getLast?)
      = .ok (some (":OUTPUT" ++ toString n ++ ":STATE " ++ invTok s))
    := by
  rcases hs with hs | hs <;> subst hs <;>
    simp [F4T.set_output, F4T.send_cmd, F4T.read_items, h, invTok,
      Except.bind, Except.map, List.getLast?_concat]

/-- Claim C5, witness: output first observed OFF; the first call writes
ON, the second writes OFF again. -/
theorem c5_toggle_round_trip_witness :
    ((((F4T.init 22 TempUnits.C 1 none ["OFF", "ON"]).set_output 1).bind
        (fun st1 => st1.set_output 1)).map
          (fun st2 => st2.sent.getLast?)
      = .ok (some (":OUTPUT" ++ toString (1 : Int) ++ ":STATE " ++ "OFF")))
    ∧ (((F4T.init 22 TempUnits.C 1 none ["OFF", "ON"]).set_output 1).map
        (fun st1 => st1.sent.getLast?)
      = .ok (some (":OUTPUT" ++ toString (1 : Int) ++ ":STATE "
          ++ invTok "OFF"))) :=
  c5_toggle_round_trip 1 "OFF"
    (F4T.init 22 TempUnits.C 1 none ["OFF", "ON"]) (Or.inr rfl) rfl

/-- Claim C6: `set_ramp` builds the set-variant command from the same
sub-parameter token used by the query form of `get_ramp` — still
carrying the query marker — with the value appended: whenever the query
form sends command `q`, the set form sends `q ++ " " ++ value`, and
concretely the rate and time variants send
`:SOURCE:CLOOP<loop>:RRATE? <value>` and
`:SOURCE:CLOOP<loop>:RTIME? <value>`. -/
theorem c6_set_ramp_reuses_query_form (st : F4T) (value : String)
    (loop : Int) :
    (∀ rampType q,
      (st.get_ramp rampType loop).sent = st.sent ++ [q] →
      (st.set_ramp rampType value loop).sent
        = st.sent ++ [q ++ " " ++ value])
    ∧ (st.set_ramp "rate" value loop).sent
      = st.sent ++ [":SOURCE:CLOOP" ++ toString loop ++ ":" ++ "RRATE?"
          ++ " " ++ value]
    ∧ (st.set_ramp "time" value loop).sent
      = st.sent ++ [":SOURCE:CLOOP" ++ toString loop ++ ":" ++ "RTIME?"
          ++ " " ++ value] := by
  refine ⟨?_, ?_, ?_⟩
  · intro rampType q hq
    simp only [F4T.get_ramp, F4T.send_cmd] at hq
    have hq' := List.append_cancel_left hq
    have hqq : q = ":SOURCE:CLOOP" ++ toString loop ++ ":"
        ++ (if rampType == "rate" then "RRATE?" else "RTIME?") := by
      cases hq'
      rfl
    subst hqq
    simp [F4T.set_ramp, F4T.send_cmd]
  · simp [F4T.set_ramp, F4T.send_cmd]
  · simp [F4T.set_ramp, F4T.send_cmd]

/-- Claim C6, witness: the rate variant at loop 1 with value 5 appends
the value to the query-form command, query marker included. -/
theorem c6_set_ramp_reuses_query_form_witness :
    ((F4T.init 22 TempUnits.C 1 none []).set_ramp "rate" "5" 1).sent
      = (F4T.init 22 TempUnits.C 1 none []).sent
        ++ [(":SOURCE:CLOOP" ++ toString (1 : Int) ++ ":" ++ "RRATE?")
            ++ " " ++ "5"] :=
  (c6_set_ramp_reuses_query_form
      (F4T.init 22 TempUnits.C 1 none []) "5" 1).1 "rate"
    (":SOURCE:CLOOP" ++ toString (1 : Int) ++ ":" ++ "RRATE?") rfl

/-- Claim C7: `get_ramp` sends its query (text ending in the query
marker) but, contrary to the get-operation pattern, performs no read and
surfaces no result: the pending responses are untouched and the only
effect is the sent command.  This exhibits the divergence for the
code-bug verdict: a well-formed query is issued and its answer is never
consumed. -/
theorem c7_get_ramp_never_reads (st : F4T) (rampType : String)
    (loop : Int) :
    (st.get_ramp rampType loop).incoming = st.incoming
    ∧ (st.get_ramp rampType loop).sent
      = st.sent ++ [":SOURCE:CLOOP" ++ toString loop ++ ":"
          ++ (if rampType == "rate" then "RRATE?" else "RTIME?")]
    ∧ (st.get_ramp rampType loop).profiles = st.profiles :=
  ⟨rfl, rfl, rfl⟩

/-- Claim C8, counterexample.  The claim says a re-enumeration fully
overwrites the registry, so no stale entry survives a run that discovers
fewer profiles.  In the source `get_profiles` never clears
`self.profiles`: starting from a registry holding entries 1 and 2, a
re-run whose device reports name `NameA` for profile 1 and an empty name
for profile 2 discovers only `[(1, NameA)]` (second conjunct), yet the
stale entry `(2, NameB)` survives (first conjunct). -/
theorem c8_counterexample :
    (({ F4T.init 22 TempUnits.C 1 none ["NameA", ""] with
        profiles := [(1, "NameA"), (2, "NameB")] } : F4T).get_profiles).map
          F4T.profiles
      = .ok [(1, "NameA"), (2, "NameB")]
    ∧ enumSpec 39 1 ["NameA", ""] = [(1, "NameA")] :=
  ⟨rfl, rfl⟩

/-- Claim C8, amended: re-running `get_profiles` merges the entries
discovered in that run into the existing registry — each discovered
profile number is overwritten in place or appended, and prior entries
for numbers the run did not reach survive (no full invalidation); no
operation other than `get_profiles` ever adds or removes registry
entries. -/
theorem c8_registry_merge (st st' : F4T) (op : Op)
    (h : op.run st = .ok st') :
    (op = Op.get_profiles →
      st'.profiles = (enumSpec 39 1 st.incoming).foldl
          (fun d q => dictInsert d q.1 q.2) st.profiles)
    ∧ (op ≠ Op.get_profiles → st'.profiles = st.profiles) := by
  constructor
  · intro hop
    subst hop
    simp only [Op.run, F4T.get_profiles] at h
    exact (get_profilesAux_ok 39 1 st st' h).1
  · exact (Op_run_frame op st st' h).2.2.2.2

/-- Claim C8, witness: a re-run over the counterexample device state
merges by `dictInsert` instead of overwriting. -/
theorem c8_registry_merge_witness :
    (Op.get_profiles.run
        ({ F4T.init 22 TempUnits.C 1 none ["NameA", ""] with
            profiles := [(1, "NameA"), (2, "NameB")] } : F4T)
      = .ok ({ F4T.init 22 TempUnits.C 1 none [] with
          profiles := [(1, "NameA"), (2, "NameB")],
          sent := [":PROGRAM:NUMBER 1", ":PROGRAM:NAME?",
                   ":PROGRAM:NUMBER 2", ":PROGRAM:NAME?"] } : F4T))
    ∧ ({ F4T.init 22 TempUnits.C 1 none [] with
          profiles := [(1, "NameA"), (2, "NameB")],
          sent := [":PROGRAM:NUMBER 1", ":PROGRAM:NAME?",
                   ":PROGRAM:NUMBER 2", ":PROGRAM:NAME?"] } : F4T).profiles
      = (enumSpec 39 1
          ({ F4T.init 22 TempUnits.C 1 none ["NameA", ""] with
              profiles := [(1, "NameA"), (2, "NameB")] } : F4T).incoming).foldl
          (fun d q => dictInsert d q.1 q.2)
          ({ F4T.init 22 TempUnits.C 1 none ["NameA", ""] with
              profiles := [(1, "NameA"), (2, "NameB")] } : F4T).profiles :=
  ⟨rfl,
   (c8_registry_merge
      ({ F4T.init 22 TempUnits.C 1 none ["NameA", ""] with
          profiles := [(1, "NameA"), (2, "NameB")] } : F4T)
      ({ F4T.init 22 TempUnits.C 1 none [] with
          profiles := [(1, "NameA"), (2, "NameB")],
          sent := [":PROGRAM:NUMBER 1", ":PROGRAM:NAME?",
                   ":PROGRAM:NUMBER 2", ":PROGRAM:NAME?"] } : F4T)
      Op.get_profiles rfl).1 rfl⟩

/-- Claim C9: the constructor applies the default channel timeout of
1.5 seconds when none is supplied, leaves a supplied timeout as given,
and issues no command (the sent list of a fresh instance is empty). -/
theorem c9_timeout_default (sp : Rat) (u : TempUnits) (p : Int)
    (inc : List String) (t : Rat) :
    (F4T.init sp u p none inc).timeout = some (3 / 2)
    ∧ (F4T.init sp u p (some t) inc).timeout = some t
    ∧ (F4T.init sp u p none inc).sent = []
    ∧ (F4T.init sp u p (some t) inc).sent = [] :=
  ⟨rfl, rfl, rfl, rfl⟩

/-- Claim C10: `select_profile` and `write_sp` only send commands, so
after any sequence of these operations the convenience fields
`current_profile` and `set_point` still hold their construction-time
values. -/
theorem c10_convenience_fields_frame (sp : Rat) (u : TempUnits)
    (p : Int) (t : Option Rat) (inc : List String) (ops : List SpOp) :
    (runSpOps (F4T.init sp u p t inc) ops).current_profile = p
    ∧ (runSpOps (F4T.init sp u p t inc) ops).set_point = sp := by
  have key : ∀ (ops : List SpOp) (st : F4T),
      (runSpOps st ops).current_profile = st.current_profile
      ∧ (runSpOps st ops).set_point = st.set_point := by
    intro ops
    induction ops with
    | nil => intro st; exact ⟨rfl, rfl⟩
    | cons op ops ih =>
      intro st
      have h := ih (op.apply st)
      cases op with
      | select q => exact ⟨h.1, h.2⟩
      | write v l => exact ⟨h.1, h.2⟩
  exact (key ops (F4T.init sp u p t inc))
